import Mathlib

/-!
Shallow embedding of the presence and signaling core of the videocall
repository. Server side: src/utils/socketHandler.js (the Presence
Registry maps and the Socket.IO relay handlers). Client side:
src/public/js/app.js (call lifecycle, end-call handling, duplicate-call
guard, offer retry) and the extended client bundled after the server
handler (ICE-restart debounce, adaptive quality controller).
JS Map values are embedded as association lists whose set operation
replaces the value at the first matching key in place.
-/

namespace Videocall

/-- JS Map.set on a Nat-keyed map: replace the value stored at the first
matching key, else append the pair at the end. -/
def mapSet : List (Nat × Nat) → Nat → Nat → List (Nat × Nat)
  | [], k, v => [(k, v)]
  | (k1, v1) :: rest, k, v =>
      if k1 = k then (k, v) :: rest else (k1, v1) :: mapSet rest k v

/-- JS Map.get: the value stored at the first matching key, none when absent. -/
def mapGet : List (Nat × Nat) → Nat → Option Nat
  | [], _ => none
  | (k1, v1) :: rest, k => if k1 = k then some v1 else mapGet rest k

/-- JS Map.delete: remove the entries stored at the key. -/
def mapDelete : List (Nat × Nat) → Nat → List (Nat × Nat)
  | [], _ => []
  | (k1, v1) :: rest, k =>
      if k1 = k then mapDelete rest k else (k1, v1) :: mapDelete rest k

/-- Number of entries stored at a key. -/
def countKey : List (Nat × Nat) → Nat → Nat
  | [], _ => 0
  | (k1, _) :: rest, k => (if k1 = k then 1 else 0) + countKey rest k

/-- Authenticated session user as read from the socket session
(socketHandler.js line 13); only the fields the relay handlers use. -/
structure UserRec where
  id : Nat
  name : String
deriving DecidableEq

/-- Presence Registry state: the two in-memory maps of
socketHandler.js lines 5 and 7 (userId to socketId and its reverse). -/
structure Registry where
  userSocketMap : List (Nat × Nat)
  socketUserMap : List (Nat × Nat)
deriving DecidableEq

/-- Both maps start empty (module load). -/
def Registry.empty : Registry := ⟨[], []⟩

/-- Bind on an authenticated connection (socketHandler.js lines 20 and 21):
both maps are set unconditionally; a prior reverse entry for a superseded
socket of the same user is left in place. -/
def bind (r : Registry) (userId socketId : Nat) : Registry :=
  { userSocketMap := mapSet r.userSocketMap userId socketId,
    socketUserMap := mapSet r.socketUserMap socketId userId }

/-- Disconnect handler (socketHandler.js lines 80 to 88): resolve the
socket through the reverse map and, when it resolves, delete the forward
entry of that user and the reverse entry of the socket. There is no check
that the stored forward handle still equals the disconnecting socket. -/
def disconnectSocket (r : Registry) (socketId : Nat) : Registry :=
  match mapGet r.socketUserMap socketId with
  | some userId =>
      { userSocketMap := mapDelete r.userSocketMap userId,
        socketUserMap := mapDelete r.socketUserMap socketId }
  | none => r

/-- Registry lookup: userSocketMap.get (socketHandler.js lines 36, 52, 63, 74). -/
def lookup (r : Registry) (userId : Nat) : Option Nat :=
  mapGet r.userSocketMap userId

/-- Fields destructured from a call-user payload (socketHandler.js line 35).
The fromUserId field models a sender-supplied identity field that the
destructuring never reads; the handler uses only the session user. -/
structure CallUserPayload where
  toUserId : Option Nat
  offer : Option String
  metadata : Option (List (String × String))
  fromUserId : Option Nat
deriving DecidableEq

/-- Fields destructured from an answer-call payload (socketHandler.js line 51). -/
structure AnswerCallPayload where
  toUserId : Option Nat
  answer : Option String
  fromUserId : Option Nat
deriving DecidableEq

/-- Fields destructured from an ice-candidate payload (socketHandler.js line 62). -/
structure IceCandidatePayload where
  toUserId : Option Nat
  candidate : Option String
  fromUserId : Option Nat
deriving DecidableEq

/-- Fields destructured from an end-call payload (socketHandler.js line 73). -/
structure EndCallPayload where
  toUserId : Option Nat
  reason : Option String
  fromUserId : Option Nat
deriving DecidableEq

/-- Inbound client signaling events; a payload of none models a null or
undefined payload argument (the handlers write payload or-else empty). -/
inductive ClientMsg
  | callUser (p : Option CallUserPayload)
  | answerCall (p : Option AnswerCallPayload)
  | iceCandidate (p : Option IceCandidatePayload)
  | endCall (p : Option EndCallPayload)
deriving DecidableEq

/-- Outbound server events emitted by the relay handlers. -/
inductive ServerMsg
  | incomingCall (fromUserId : Nat) (fromName : String) (offer : Option String)
      (metadata : List (String × String))
  | callError (toUserId : Option Nat) (message : String)
  | callAnswered (fromUserId : Nat) (answer : Option String)
  | iceCandidate (fromUserId : Nat) (candidate : Option String)
  | callEnded (fromUserId : Nat) (reason : String)
deriving DecidableEq

/-- JS string default via the or-else operator: null, undefined and the
empty string are falsy and replaced by the default. -/
def jsOr (s : Option String) (d : String) : String :=
  match s with
  | none => d
  | some v => if v = "" then d else v

/-- userSocketMap.get applied to a possibly undefined toUserId: an
undefined key is absent because the map is keyed by user ids. -/
def jsLookup (r : Registry) (o : Option Nat) : Option Nat :=
  match o with
  | none => none
  | some u => lookup r u

/-- The four signaling relay handlers (socketHandler.js lines 34 to 78),
as a function from an inbound event on an authenticated socket to the
list of emissions, each tagged with the receiving socket id. -/
def handleClientMsg (r : Registry) (user : UserRec) (senderSid : Nat) :
    ClientMsg → List (Nat × ServerMsg)
  | ClientMsg.callUser p =>
      let f := p.getD ⟨none, none, none, none⟩
      match jsLookup r f.toUserId with
      | none => [(senderSid, ServerMsg.callError f.toUserId "User is offline.")]
      | some tsid =>
          [(tsid, ServerMsg.incomingCall user.id user.name f.offer (f.metadata.getD []))]
  | ClientMsg.answerCall p =>
      let f := p.getD ⟨none, none, none⟩
      match jsLookup r f.toUserId with
      | none => []
      | some tsid => [(tsid, ServerMsg.callAnswered user.id f.answer)]
  | ClientMsg.iceCandidate p =>
      let f := p.getD ⟨none, none, none⟩
      match jsLookup r f.toUserId with
      | none => []
      | some tsid => [(tsid, ServerMsg.iceCandidate user.id f.candidate)]
  | ClientMsg.endCall p =>
      let f := p.getD ⟨none, none, none⟩
      match jsLookup r f.toUserId with
      | none => []
      | some tsid => [(tsid, ServerMsg.callEnded user.id (jsOr f.reason "ended"))]

/-- Result of the connection setup (socketHandler.js lines 10 to 30):
the registry after the connection event, whether the signaling and
presence handlers were registered, and how many presence broadcasts
were triggered. -/
structure ConnOutcome where
  reg : Registry
  handlersRegistered : Bool
  broadcasts : Nat
deriving DecidableEq

/-- Connection event: an unauthenticated socket returns early at
socketHandler.js lines 14 to 17, before the bind, the broadcast and
every handler registration; an authenticated one binds and broadcasts. -/
def initSocketConn (r : Registry) (sessionUser : Option UserRec) (sid : Nat) : ConnOutcome :=
  match sessionUser with
  | none => ⟨r, false, 0⟩
  | some u => ⟨bind r u.id sid, true, 1⟩

/-- Socket events after connection setup. -/
inductive SockEvt
  | message (m : ClientMsg)
  | presenceRefresh
  | disconnected
deriving DecidableEq

/-- Effect of a socket event: registry after the event, emissions, and
presence broadcasts. On an unauthenticated connection no handler was
registered, so every event is inert. -/
def processSockEvt (r : Registry) (auth : Option UserRec) (sid : Nat) :
    SockEvt → Registry × List (Nat × ServerMsg) × Nat
  | e =>
    match auth with
    | none => (r, [], 0)
    | some u =>
      match e with
      | SockEvt.message m => (r, handleClientMsg r u sid m, 0)
      | SockEvt.presenceRefresh => (r, [], 1)
      | SockEvt.disconnected =>
          (disconnectSocket r sid, [],
            match mapGet r.socketUserMap sid with
            | some _ => 1
            | none => 0)

/-- Client side call state (app.js lines 17 to 21): the peer map
(userId to a peer connection, embedded as an id), the remote stream map,
the set of rendering tiles, plus the list of peer connection ids that
have been closed, recording resource releases. -/
structure ClientState where
  peers : List (Nat × Nat)
  remoteStreams : List (Nat × Nat)
  tiles : List Nat
  closedPcs : List Nat
deriving DecidableEq

/-- Outbound client signaling emissions relevant to the end flow. -/
inductive ClientOut
  | endCallMsg (toUserId : Nat) (reason : String)
deriving DecidableEq

/-- endCall (app.js lines 388 to 401): close and remove the peer entry
when present, always delete the remote stream and the tile, and always
emit one end-call message with reason or-else ended. -/
def endCall (s : ClientState) (peerUserId : Nat) (reason : Option String) :
    ClientState × List ClientOut :=
  let s1 :=
    match mapGet s.peers peerUserId with
    | some pcId =>
        { s with peers := mapDelete s.peers peerUserId,
                 closedPcs := pcId :: s.closedPcs }
    | none => s
  let s2 :=
    { s1 with remoteStreams := mapDelete s1.remoteStreams peerUserId,
              tiles := s1.tiles.filter (fun t => t ≠ peerUserId) }
  (s2, [ClientOut.endCallMsg peerUserId (jsOr reason "ended")])

/-- handleCallEnded (app.js lines 403 to 411): close and remove the peer
entry when present, delete the remote stream and the tile, and emit
nothing. -/
def handleCallEnded (s : ClientState) (fromUserId : Nat) :
    ClientState × List ClientOut :=
  let s1 :=
    match mapGet s.peers fromUserId with
    | some pcId =>
        { s with peers := mapDelete s.peers fromUserId,
                 closedPcs := pcId :: s.closedPcs }
    | none => s
  ({ s1 with remoteStreams := mapDelete s1.remoteStreams fromUserId,
             tiles := s1.tiles.filter (fun t => t ≠ fromUserId) },
   [])

/-- A client state holding one live session with peer 5 (peer connection
id 100, a remote stream and a tile). -/
def c3state : ClientState := ⟨[(5, 100)], [(5, 7)], [5], []⟩

/-- Progress of one startCall invocation through its steps (app.js
lines 310 to 321): start is before the peers.has guard at line 312,
ready is suspended in the awaits between the guard and the
createPeerConnection call, inserted is after peers.set at line 218,
aborted is the early return of the guard. -/
inductive Phase
  | start
  | ready
  | inserted
  | aborted
deriving DecidableEq

/-- One startCall task: its phase and the peer connection it created. -/
structure Task where
  phase : Phase
  pcId : Option Nat
deriving DecidableEq

/-- Two concurrent startCall invocations toward the same peer over the
shared peer map; fresh numbers the RTCPeerConnection objects created. -/
structure CallSys where
  peers : List (Nat × Nat)
  fresh : Nat
  t1 : Task
  t2 : Task
deriving DecidableEq

/-- One atomic step of a startCall task: the guard reads the map; the
insert step performs peers.set with a freshly created peer connection. -/
def taskStep (peer : Nat) (peers : List (Nat × Nat)) (fresh : Nat) (t : Task) :
    List (Nat × Nat) × Nat × Task :=
  match t.phase with
  | Phase.start =>
      if (mapGet peers peer).isSome then (peers, fresh, { t with phase := Phase.aborted })
      else (peers, fresh, { t with phase := Phase.ready })
  | Phase.ready =>
      (mapSet peers peer fresh, fresh + 1, { phase := Phase.inserted, pcId := some fresh })
  | Phase.inserted => (peers, fresh, t)
  | Phase.aborted => (peers, fresh, t)

/-- Scheduler step: run one atomic step of the chosen task. -/
def sysStep (peer : Nat) (sys : CallSys) (which : Bool) : CallSys :=
  if which then
    let r := taskStep peer sys.peers sys.fresh sys.t1
    { peers := r.1, fresh := r.2.1, t1 := r.2.2, t2 := sys.t2 }
  else
    let r := taskStep peer sys.peers sys.fresh sys.t2
    { peers := r.1, fresh := r.2.1, t1 := sys.t1, t2 := r.2.2 }

/-- Run a whole interleaving of the two startCall invocations. -/
def runSched (peer : Nat) : List Bool → CallSys → CallSys
  | [], sys => sys
  | w :: rest, sys => runSched peer rest (sysStep peer sys w)

/-- Both invocations posed, empty peer map, no connection created yet. -/
def startSys : CallSys := ⟨[], 0, ⟨Phase.start, none⟩, ⟨Phase.start, none⟩⟩

/-- Low level ICE connectivity events as seen by the handler registered
at lines 632 to 655 of the extended client: disc covers the disconnected
and failed states, recov covers connected and completed. -/
inductive IceEvt
  | disc
  | recov
deriving DecidableEq

/-- Debounce state: the arming time of the pending 2 unit timer, if any,
and the times at which an ICE restart offer was generated. -/
structure IceSt where
  armed : Option Nat
  restarts : List Nat
deriving DecidableEq

/-- Fire the pending timer when its 2 unit delay has elapsed by now: the
restart offer is generated at arming time plus 2 and the timer handle is
cleared (the callback ends with disconnectTimer equal null). -/
def fireIfDue (now : Nat) (st : IceSt) : IceSt :=
  match st.armed with
  | some t0 =>
      if t0 + 2 ≤ now then { armed := none, restarts := st.restarts ++ [t0 + 2] }
      else st
  | none => st

/-- The oniceconnectionstatechange handler at an event time: any due
timer fires first; a disc event arms the timer only when none is armed;
a recov event clears any pending timer. -/
def iceEvtStep (now : Nat) (e : IceEvt) (st : IceSt) : IceSt :=
  let st1 := fireIfDue now st
  match e with
  | IceEvt.disc =>
      match st1.armed with
      | none => { st1 with armed := some now }
      | some _ => st1
  | IceEvt.recov => { st1 with armed := none }

/-- Process a time ordered trace of connectivity events. -/
def iceRun : List (Nat × IceEvt) → IceSt → IceSt
  | [], st => st
  | (t, e) :: rest, st => iceRun rest (iceEvtStep t e st)

/-- Run a trace from the unarmed initial state and then let time advance
to the horizon so that a still pending timer fires. -/
def iceRunH (evts : List (Nat × IceEvt)) (horizon : Nat) : IceSt :=
  fireIfDue horizon (iceRun evts ⟨none, []⟩)

/-- Number of disc events in a trace. -/
def countDisc : List (Nat × IceEvt) → Nat
  | [] => 0
  | (_, IceEvt.disc) :: rest => countDisc rest + 1
  | (_, IceEvt.recov) :: rest => countDisc rest

/-- One when a timer is armed, zero otherwise. -/
def armedPot (st : IceSt) : Nat :=
  match st.armed with
  | some _ => 1
  | none => 0

/-- Adaptive quality controller state (extended client lines 183 and 200):
the level and the two consecutive tick counters. -/
structure AdaptiveState where
  level : Nat
  improvingTicks : Nat
  degradingTicks : Nat
deriving DecidableEq

/-- State at controller attachment: level 3, both counters zero. -/
def adaptiveStart : AdaptiveState := ⟨3, 0, 0⟩

/-- Per tick classification (extended client line 212): degrading when
RTT exceeds 0.3, loss ratio exceeds 0.03 or FPS is below 15. -/
def degradingCond (rtt lossRatio fps : ℚ) : Bool :=
  (3 / 10 < rtt) || (3 / 100 < lossRatio) || (fps < 15)

/-- One sampling tick of the controller (extended client lines 212 to 216):
update the counters, then decrease the level above the floor after the
degrading counter reaches 2, then increase it below the ceiling after the
improving counter reaches 10, each change resetting its counter. -/
def adaptTick (d : Bool) (s : AdaptiveState) : AdaptiveState :=
  let s1 :=
    if d then { s with degradingTicks := s.degradingTicks + 1, improvingTicks := 0 }
    else { s with improvingTicks := s.improvingTicks + 1, degradingTicks := 0 }
  let s2 :=
    if 2 ≤ s1.degradingTicks ∧ 0 < s1.level then
      { s1 with level := s1.level - 1, degradingTicks := 0 }
    else s1
  if 10 ≤ s2.improvingTicks ∧ s2.level < 3 then
    { s2 with level := s2.level + 1, improvingTicks := 0 }
  else s2

/-- A tick fed by the sampled statistics. -/
def adaptStep (rtt lossRatio fps : ℚ) (s : AdaptiveState) : AdaptiveState :=
  adaptTick (degradingCond rtt lossRatio fps) s

/-- Iterate improving ticks. -/
def improvingIter : Nat → AdaptiveState → AdaptiveState
  | 0, s => s
  | k + 1, s => improvingIter k (adaptTick false s)

/-- Outcome of the offer production part of startCall (app.js lines
324 to 340 and the surrounding try): how often the receive only fallback
ran, how many offer attempts were made, the offer sent, and the reason
passed to endCall when the flow ended in the outer catch. -/
structure NegoOutcome where
  fallbackCalls : Nat
  offerAttempts : Nat
  sentOffer : Option Nat
  endedReason : Option String
deriving DecidableEq

/-- The offer retry flow: attempt createOffer; on failure run
ensureRecvOnly once and retry once; a second failure reaches the outer
catch, which calls endCall with reason error. The two arguments give the
outcome of the first and second createOffer call. -/
def negotiateOffer : Option Nat → Option Nat → NegoOutcome
  | some o, _ => ⟨0, 1, some o, none⟩
  | none, some o => ⟨1, 2, some o, none⟩
  | none, none => ⟨1, 2, none, some "error"⟩

/-! Helper lemmas on the association list map primitives. -/

theorem mapGet_mapSet_self (m : List (Nat × Nat)) (k v : Nat) :
    mapGet (mapSet m k v) k = some v := by
  induction m with
  | nil => simp [mapSet, mapGet]
  | cons p rest ih =>
    obtain ⟨k1, v1⟩ := p
    by_cases h : k1 = k
    · simp [mapSet, mapGet, h]
    · simp [mapSet, mapGet, h, ih]

theorem mapGet_mapDelete_self (m : List (Nat × Nat)) (k : Nat) :
    mapGet (mapDelete m k) k = none := by
  induction m with
  | nil => simp [mapDelete, mapGet]
  | cons p rest ih =>
    obtain ⟨k1, v1⟩ := p
    by_cases h : k1 = k
    · simp [mapDelete, mapGet, h, ih]
    · simp [mapDelete, mapGet, h, ih]

theorem mapDelete_absent (m : List (Nat × Nat)) (k : Nat)
    (h : mapGet m k = none) : mapDelete m k = m := by
  induction m with
  | nil => simp [mapDelete]
  | cons p rest ih =>
    obtain ⟨k1, v1⟩ := p
    by_cases hk : k1 = k
    · simp [mapGet, hk] at h
    · simp [mapGet, hk] at h
      simp [mapDelete, hk, ih h]

theorem countKey_mapSet_self (m : List (Nat × Nat)) (k v : Nat) :
    countKey (mapSet m k v) k = max 1 (countKey m k) := by
  induction m with
  | nil => simp [mapSet, countKey]
  | cons p rest ih =>
    obtain ⟨k1, v1⟩ := p
    by_cases h : k1 = k
    · simp [mapSet, countKey, h]
    · simp [mapSet, countKey, h, ih]

/-- C1: after bind(identity, h1) then bind(identity, h2), a disconnect of
the superseded handle h1 does not leave the newer binding intact: lookup
of the identity no longer returns h2, refuting the claimed race guard. -/
theorem C1_counterexample :
    lookup (disconnectSocket (bind (bind Registry.empty 0 1) 0 2) 1) 0 ≠ some 2 := by
  decide

/-- C1 amended: lookup returns the handle of the most recent successful
bind; but the disconnect handler is unguarded: whenever the reverse index
still resolves the disconnecting handle to the identity, the forward
entry of that identity is cleared unconditionally, even when it stores a
newer handle, so a stale disconnect removes the newer binding. -/
theorem C1_registry_unbind_unguarded (r : Registry) (u h sid : Nat)
    (hrev : mapGet r.socketUserMap sid = some u) :
    lookup (bind r u h) u = some h ∧ lookup (disconnectSocket r sid) u = none := by
  constructor
  · simp [lookup, bind, mapGet_mapSet_self]
  · simp [lookup, disconnectSocket, hrev, mapGet_mapDelete_self]

theorem C1_registry_unbind_unguarded_witness :
    mapGet (bind (bind Registry.empty 0 1) 0 2).socketUserMap 1 = some 0
  ∧ lookup (disconnectSocket (bind (bind Registry.empty 0 1) 0 2) 1) 0 = none :=
  ⟨by decide, (C1_registry_unbind_unguarded (bind (bind Registry.empty 0 1) 0 2) 0 7 1 (by decide)).2⟩

/-- C2: when the target identity has no binding, a call-user event yields
exactly one call-error back to the sending socket, carrying the target
identity and the message User is offline., and nothing is delivered to
anyone else; answer-call, ice-candidate and end-call to an unbound target
emit nothing at all. -/
theorem C2_offline_routing (r : Registry) (user : UserRec) (sid toId : Nat)
    (off : Option String) (md : Option (List (String × String)))
    (ans cand rsn : Option String) (sp1 sp2 sp3 sp4 : Option Nat)
    (h : lookup r toId = none) :
    handleClientMsg r user sid (ClientMsg.callUser (some ⟨some toId, off, md, sp1⟩))
      = [(sid, ServerMsg.callError (some toId) "User is offline.")]
  ∧ handleClientMsg r user sid (ClientMsg.answerCall (some ⟨some toId, ans, sp2⟩)) = []
  ∧ handleClientMsg r user sid (ClientMsg.iceCandidate (some ⟨some toId, cand, sp3⟩)) = []
  ∧ handleClientMsg r user sid (ClientMsg.endCall (some ⟨some toId, rsn, sp4⟩)) = [] := by
  refine ⟨?_, ?_, ?_, ?_⟩ <;> simp [handleClientMsg, jsLookup, h]

theorem C2_offline_routing_witness :
    lookup Registry.empty 7 = none
  ∧ handleClientMsg Registry.empty ⟨1, "A"⟩ 3
      (ClientMsg.callUser (some ⟨some 7, none, none, none⟩))
      = [(3, ServerMsg.callError (some 7) "User is offline.")] :=
  ⟨by decide,
   (C2_offline_routing Registry.empty ⟨1, "A"⟩ 3 7 none none none none none
      none none none none (by decide)).1⟩

/-- C5 counterexample: with the target bound, an end-call carrying the
empty string as reason is not forwarded verbatim: the target receives
reason ended instead of the empty string. -/
theorem C5_counterexample :
    handleClientMsg (bind Registry.empty 5 9) ⟨1, "A"⟩ 3
        (ClientMsg.endCall (some ⟨some 5, some "", none⟩))
      = [(9, ServerMsg.callEnded 1 "ended")]
  ∧ handleClientMsg (bind Registry.empty 5 9) ⟨1, "A"⟩ 3
        (ClientMsg.endCall (some ⟨some 5, some "", none⟩))
      ≠ [(9, ServerMsg.callEnded 1 "")] := by
  refine ⟨by decide, by decide⟩

/-- C5 amended: when the target identity is bound, each of the four
signaling kinds delivers exactly one event to the target socket, whose
from identity is the authenticated identity of the sender whatever
identity field the payload carries; offer, answer and candidate are
forwarded verbatim; the end-call reason, whether present or absent, is
delivered as reason or-else ended: verbatim when it is not the empty
string, replaced by ended when absent or empty. -/
theorem C5_forward_authenticated_amended (r : Registry) (user : UserRec)
    (sid toId tsid : Nat) (off : Option String)
    (md : Option (List (String × String))) (ans cand : Option String)
    (rsn : String) (orsn : Option String) (sp1 sp2 sp3 sp4 : Option Nat)
    (h : lookup r toId = some tsid) :
    handleClientMsg r user sid (ClientMsg.callUser (some ⟨some toId, off, md, sp1⟩))
      = [(tsid, ServerMsg.incomingCall user.id user.name off (md.getD []))]
  ∧ handleClientMsg r user sid (ClientMsg.answerCall (some ⟨some toId, ans, sp2⟩))
      = [(tsid, ServerMsg.callAnswered user.id ans)]
  ∧ handleClientMsg r user sid (ClientMsg.iceCandidate (some ⟨some toId, cand, sp3⟩))
      = [(tsid, ServerMsg.iceCandidate user.id cand)]
  ∧ handleClientMsg r user sid (ClientMsg.endCall (some ⟨some toId, some rsn, sp4⟩))
      = [(tsid, ServerMsg.callEnded user.id (jsOr (some rsn) "ended"))]
  ∧ (rsn ≠ "" → jsOr (some rsn) "ended" = rsn)
  ∧ jsOr (some "") "ended" = "ended"
  ∧ handleClientMsg r user sid (ClientMsg.endCall (some ⟨some toId, orsn, sp4⟩))
      = [(tsid, ServerMsg.callEnded user.id (jsOr orsn "ended"))]
  ∧ jsOr none "ended" = "ended" := by
  refine ⟨?_, ?_, ?_, ?_, ?_, ?_, ?_, ?_⟩
  · simp [handleClientMsg, jsLookup, h]
  · simp [handleClientMsg, jsLookup, h]
  · simp [handleClientMsg, jsLookup, h]
  · simp [handleClientMsg, jsLookup, h]
  · intro hr
    simp [jsOr, hr]
  · simp [jsOr]
  · simp [handleClientMsg, jsLookup, h]
  · simp [jsOr]

theorem C5_forward_authenticated_amended_witness :
    lookup (bind Registry.empty 5 9) 5 = some 9
  ∧ handleClientMsg (bind Registry.empty 5 9) ⟨1, "A"⟩ 3
      (ClientMsg.answerCall (some ⟨some 5, some "sdp", none⟩))
      = [(9, ServerMsg.callAnswered 1 (some "sdp"))]
  ∧ handleClientMsg (bind Registry.empty 5 9) ⟨1, "A"⟩ 3
      (ClientMsg.endCall (some ⟨some 5, none, none⟩))
      = [(9, ServerMsg.callEnded 1 (jsOr none "ended"))] := by
  have h := C5_forward_authenticated_amended (bind Registry.empty 5 9) ⟨1, "A"⟩ 3 5 9
      none none (some "sdp") none "x" none none none none none (by decide)
  exact ⟨by decide, h.2.1, h.2.2.2.2.2.2.1⟩

/-- C9: a null or undefined payload on any of the four signaling events
is handled without failure: all fields read as undefined, the target
lookup is absent, nothing is forwarded to any other connection, and for
call-user one call-error still goes back to the sender. -/
theorem C9_null_payload_safe (r : Registry) (user : UserRec) (sid : Nat) :
    handleClientMsg r user sid (ClientMsg.callUser none)
      = [(sid, ServerMsg.callError none "User is offline.")]
  ∧ handleClientMsg r user sid (ClientMsg.answerCall none) = []
  ∧ handleClientMsg r user sid (ClientMsg.iceCandidate none) = []
  ∧ handleClientMsg r user sid (ClientMsg.endCall none) = [] :=
  ⟨rfl, rfl, rfl, rfl⟩

/-- C10: a connection whose session carries no user is never bound: the
connection event leaves the registry unchanged, registers no handlers
and broadcasts nothing, and every later event on that connection causes
no forwarding, no registry mutation and no presence broadcast. -/
theorem C10_unauthenticated_inert (r : Registry) (sid : Nat) (e : SockEvt) :
    initSocketConn r none sid = ⟨r, false, 0⟩
  ∧ processSockEvt r none sid e = (r, [], 0) :=
  ⟨rfl, rfl⟩

/-- C3 counterexample: from a live session with peer 5, two successive
end triggers (a hangup followed by a transport failure trigger) emit two
outbound end-call messages, refuting at most one per session. -/
theorem C3_counterexample :
    ¬ (((endCall c3state 5 (some "hangup")).2
        ++ (endCall (endCall c3state 5 (some "hangup")).1 5
              (some "connectionstate:failed")).2).length ≤ 1) := by
  decide

/-- C3 amended: the peer connection resources are released at most once
per session: once the peer map entry is gone a further end trigger closes
nothing more, and receiving a remote call-ended releases without emitting;
but every invocation of the local end action emits exactly one outbound
end-call message, so repeated end triggers emit one message each. -/
theorem C3_end_release_once_emit_each (s : ClientState) (p pc : Nat) (r : Option String) :
    (endCall s p r).2 = [ClientOut.endCallMsg p (jsOr r "ended")]
  ∧ (handleCallEnded s p).2 = []
  ∧ (mapGet s.peers p = none →
      (endCall s p r).1.peers = s.peers ∧ (endCall s p r).1.closedPcs = s.closedPcs)
  ∧ (mapGet s.peers p = some pc → (endCall s p r).1.closedPcs = pc :: s.closedPcs)
  ∧ mapGet (endCall s p r).1.peers p = none
  ∧ mapGet (handleCallEnded s p).1.peers p = none := by
  refine ⟨rfl, rfl, ?_, ?_, ?_, ?_⟩
  · intro h
    simp [endCall, h]
  · intro h
    simp [endCall, h]
  · cases h : mapGet s.peers p <;> simp [endCall, h, mapGet_mapDelete_self]
  · cases h : mapGet s.peers p <;> simp [handleCallEnded, h, mapGet_mapDelete_self]

theorem C3_end_release_once_emit_each_witness :
    mapGet c3state.peers 5 = some 100
  ∧ (endCall c3state 5 (some "hangup")).1.closedPcs = [100] :=
  ⟨by decide, by
    have h := (C3_end_release_once_emit_each c3state 5 100 (some "hangup")).2.2.2.1 (by decide)
    simpa [c3state] using h⟩

theorem countKey_taskStep (peer : Nat) (peers : List (Nat × Nat)) (fresh : Nat) (t : Task)
    (h : countKey peers peer ≤ 1) :
    countKey (taskStep peer peers fresh t).1 peer ≤ 1 := by
  cases hp : t.phase <;> simp [taskStep, hp]
  · split <;> simpa using h
  · rw [countKey_mapSet_self]
    omega
  · exact h
  · exact h

theorem countKey_sysStep (peer : Nat) (sys : CallSys) (w : Bool)
    (h : countKey sys.peers peer ≤ 1) :
    countKey (sysStep peer sys w).peers peer ≤ 1 := by
  cases w <;> simp only [sysStep, if_true, if_false, Bool.false_eq_true, ite_false, ite_true]
  · exact countKey_taskStep peer sys.peers sys.fresh sys.t2 h
  · exact countKey_taskStep peer sys.peers sys.fresh sys.t1 h

/-- C4: over every interleaving of the atomic steps of two startCall
invocations toward the same peer (guard read, then insert after the
suspension points), the peer map holds at most one entry for that peer
at every moment, provided it did initially. -/
theorem C4_duplicate_call_guard (peer : Nat) (sched : List Bool) (sys : CallSys)
    (h : countKey sys.peers peer ≤ 1) :
    countKey (runSched peer sched sys).peers peer ≤ 1 := by
  induction sched generalizing sys with
  | nil => simpa [runSched] using h
  | cons w rest ih =>
    simp only [runSched]
    exact ih (sysStep peer sys w) (countKey_sysStep peer sys w h)

theorem C4_duplicate_call_guard_witness :
    countKey startSys.peers 0 ≤ 1
  ∧ countKey (runSched 0 [true, false, true, false] startSys).peers 0 ≤ 1 :=
  ⟨by decide, C4_duplicate_call_guard 0 [true, false, true, false] startSys (by decide)⟩

theorem fireIfDue_bound (now : Nat) (st : IceSt) :
    (fireIfDue now st).restarts.length + armedPot (fireIfDue now st)
      ≤ st.restarts.length + armedPot st := by
  obtain ⟨a, rs⟩ := st
  cases a with
  | none => simp [fireIfDue, armedPot]
  | some t0 =>
    by_cases hd : t0 + 2 ≤ now
    · simp [fireIfDue, hd, armedPot]
    · simp [fireIfDue, hd, armedPot]

theorem iceEvtStep_disc_bound (now : Nat) (st : IceSt) :
    (iceEvtStep now IceEvt.disc st).restarts.length
        + armedPot (iceEvtStep now IceEvt.disc st)
      ≤ st.restarts.length + armedPot st + 1 := by
  obtain ⟨a, rs⟩ := st
  cases a with
  | none => simp [iceEvtStep, fireIfDue, armedPot]
  | some t0 =>
    by_cases hd : t0 + 2 ≤ now
    · simp [iceEvtStep, fireIfDue, hd, armedPot]
    · simp [iceEvtStep, fireIfDue, hd, armedPot]

theorem iceEvtStep_recov_bound (now : Nat) (st : IceSt) :
    (iceEvtStep now IceEvt.recov st).restarts.length
        + armedPot (iceEvtStep now IceEvt.recov st)
      ≤ st.restarts.length + armedPot st := by
  obtain ⟨a, rs⟩ := st
  cases a with
  | none => simp [iceEvtStep, fireIfDue, armedPot]
  | some t0 =>
    by_cases hd : t0 + 2 ≤ now
    · simp [iceEvtStep, fireIfDue, hd, armedPot]
    · simp [iceEvtStep, fireIfDue, hd, armedPot]

theorem iceRun_bound (evts : List (Nat × IceEvt)) (st : IceSt) :
    (iceRun evts st).restarts.length + armedPot (iceRun evts st)
      ≤ st.restarts.length + armedPot st + countDisc evts := by
  induction evts generalizing st with
  | nil => simp [iceRun, countDisc]
  | cons p rest ih =>
    obtain ⟨t, e⟩ := p
    cases e
    · have h1 := iceEvtStep_disc_bound t st
      have h2 := ih (iceEvtStep t IceEvt.disc st)
      simp only [iceRun, countDisc]
      omega
    · have h1 := iceEvtStep_recov_bound t st
      have h2 := ih (iceEvtStep t IceEvt.recov st)
      simp only [iceRun, countDisc]
      omega

/-- C6 counterexample: the trace with a disconnected event at time 0 and
a failed event at time 3, with no recovery at all, is one continuous
disconnect episode, yet two restart offers are generated (at times 2 and
5): after the first fire the cleared timer is re-armed by the next
connectivity state change inside the same episode. -/
theorem C6_counterexample :
    (iceRunH [(0, IceEvt.disc), (3, IceEvt.disc)] 10).restarts = [2, 5]
  ∧ ¬ ((iceRunH [(0, IceEvt.disc), (3, IceEvt.disc)] 10).restarts.length ≤ 1) := by
  refine ⟨by decide, by decide⟩

/-- C6 amended: each arming of the debounce timer yields at most one
restart offer, generated exactly 2 time units after the arming event and
only when no recovery precedes expiry; recovery before expiry cancels the
timer and yields no offer; the total number of restart offers in a trace
is bounded by the number of disconnected or failed state change events,
but a further such event after a fire re-arms the timer, so a continuous
disconnect episode can yield more than one restart offer. -/
theorem C6_debounce_amended (evts : List (Nat × IceEvt)) (horizon t0 t : Nat) (rs : List Nat)
    (hlt : t < t0 + 2) :
    iceEvtStep t IceEvt.recov ⟨some t0, rs⟩ = ⟨none, rs⟩
  ∧ (∀ u, t0 + 2 ≤ u → fireIfDue u ⟨some t0, rs⟩ = ⟨none, rs ++ [t0 + 2]⟩)
  ∧ iceEvtStep t IceEvt.disc ⟨none, rs⟩ = ⟨some t, rs⟩
  ∧ (iceRunH evts horizon).restarts.length ≤ countDisc evts := by
  refine ⟨?_, ?_, ?_, ?_⟩
  · have hn : ¬ (t0 + 2 ≤ t) := by omega
    simp [iceEvtStep, fireIfDue, hn]
  · intro u hu
    simp [fireIfDue, hu]
  · simp [iceEvtStep, fireIfDue]
  · have h1 := iceRun_bound evts ⟨none, []⟩
    have h2 := fireIfDue_bound horizon (iceRun evts ⟨none, []⟩)
    have hz : armedPot ⟨none, ([] : List Nat)⟩ = 0 := rfl
    rw [hz] at h1
    simp only [List.length_nil] at h1
    unfold iceRunH
    omega

theorem C6_debounce_amended_witness :
    1 < 0 + 2
  ∧ iceEvtStep 1 IceEvt.recov ⟨some 0, []⟩ = ⟨none, []⟩ :=
  ⟨by decide, (C6_debounce_amended [] 0 0 1 [] (by decide)).1⟩

theorem adaptTick_false_small (s : AdaptiveState) (h : s.improvingTicks + 1 ≤ 9) :
    adaptTick false s = ⟨s.level, s.improvingTicks + 1, 0⟩ := by
  simp [adaptTick]
  omega

theorem improvingIter_small (k : Nat) (s : AdaptiveState) (h : s.improvingTicks + k ≤ 9) :
    (improvingIter k s).level = s.level
  ∧ (improvingIter k s).improvingTicks = s.improvingTicks + k := by
  induction k generalizing s with
  | zero => simp [improvingIter]
  | succ n ih =>
    have hs : adaptTick false s = ⟨s.level, s.improvingTicks + 1, 0⟩ :=
      adaptTick_false_small s (by omega)
    have h3 := ih ⟨s.level, s.improvingTicks + 1, 0⟩ (by simp; omega)
    simp only [improvingIter, hs]
    simp only [] at h3
    refine ⟨h3.1, ?_⟩
    have := h3.2
    simp at this
    omega

/-- C7: the adaptive level starts at 3 and stays at most 3; a decrease is
by exactly one, only on a degrading tick whose consecutive degrading
count has reached 2, and resets the degrading counter; an increase is by
exactly one, only on an improving tick whose consecutive improving count
has reached 10, and resets the improving counter; each counter is zeroed
whenever the opposite condition is observed; one degrading tick after a
reset never changes the level, and fewer than 10 improving ticks never
raise it. -/
theorem C7_adaptive_invariants (s : AdaptiveState) (d : Bool) (k : Nat)
    (hlev : s.level ≤ 3) :
    adaptiveStart.level = 3
  ∧ (adaptTick d s).level ≤ 3
  ∧ ((adaptTick d s).level < s.level →
      d = true ∧ s.level = (adaptTick d s).level + 1 ∧ 1 ≤ s.degradingTicks
        ∧ (adaptTick d s).degradingTicks = 0)
  ∧ (s.level < (adaptTick d s).level →
      d = false ∧ (adaptTick d s).level = s.level + 1 ∧ 9 ≤ s.improvingTicks
        ∧ (adaptTick d s).improvingTicks = 0)
  ∧ (adaptTick true s).improvingTicks = 0
  ∧ (adaptTick false s).degradingTicks = 0
  ∧ (s.degradingTicks = 0 → (adaptTick true s).level = s.level)
  ∧ (s.improvingTicks + k ≤ 9 → (improvingIter k s).level = s.level) := by
  obtain ⟨lv, im, dg⟩ := s
  refine ⟨rfl, ?_, ?_, ?_, ?_, ?_, ?_, ?_⟩
  · cases d <;> simp [adaptTick] <;> split_ifs <;> simp_all <;> omega
  · cases d <;> simp [adaptTick] <;> split_ifs <;> simp_all <;> omega
  · cases d <;> simp [adaptTick] <;> split_ifs <;> simp_all
  · simp only [adaptTick]
    split_ifs <;> simp_all
  · simp only [adaptTick]
    split_ifs <;> simp_all
  · intro h0
    subst h0
    simp [adaptTick]
  · intro hk
    exact (improvingIter_small k ⟨lv, im, dg⟩ (by simpa using hk)).1

theorem C7_adaptive_invariants_witness :
    adaptiveStart.level ≤ 3 ∧ adaptiveStart.level = 3 :=
  ⟨by decide, (C7_adaptive_invariants adaptiveStart true 0 (by decide)).1⟩

/-- C8 counterexample: when both offer attempts fail, the flow ends the
session with reason error, not with reason negotiation-failed. -/
theorem C8_counterexample :
    negotiateOffer none none = ⟨1, 2, none, some "error"⟩
  ∧ (negotiateOffer none none).endedReason ≠ some "negotiation-failed" := by
  refine ⟨rfl, by decide⟩

/-- C8 amended: a first offer failure runs the receive only fallback
exactly once and retries exactly once; a successful retry sends the
retried offer; a second failure is terminal through the end action with
reason error (the code does not use the reason negotiation-failed); a
successful first attempt runs no fallback and no retry. -/
theorem C8_retry_once_then_error (a1 a2 : Option Nat) (h : a1 = none) :
    (negotiateOffer a1 a2).fallbackCalls = 1
  ∧ (negotiateOffer a1 a2).offerAttempts = 2
  ∧ (a2 = none → (negotiateOffer a1 a2).sentOffer = none
      ∧ (negotiateOffer a1 a2).endedReason = some "error")
  ∧ (∀ o, a2 = some o → (negotiateOffer a1 a2).sentOffer = some o
      ∧ (negotiateOffer a1 a2).endedReason = none)
  ∧ (∀ o b, negotiateOffer (some o) b = ⟨0, 1, some o, none⟩) := by
  subst h
  cases a2 <;> simp [negotiateOffer]

theorem C8_retry_once_then_error_witness :
    (none : Option Nat) = none
  ∧ (negotiateOffer none none).fallbackCalls = 1 :=
  ⟨rfl, (C8_retry_once_then_error none none rfl).1⟩

end Videocall
